import Mathlib

/-!
Verification of the launch script
`mrpt_tutorials/launch/demo_localization_pf_mvsim_2d_lidar.launch.py`.

The script defines a single function `generate_launch_description` that
resolves package share directories through `get_package_share_directory`,
builds file paths with `os.path.join`, and returns a `LaunchDescription`
holding four actions: two `IncludeLaunchDescription` actions (particle
filter localization and map server) and two `Node` actions (the mvsim
simulator and rviz2).

The embedding makes the external resolver `get_package_share_directory`
a parameter `gpsd : String → String` (or `String → Except _ String` for the
exception-aware variant), and models `os.path.join` with POSIX separator
semantics, exactly as CPython's `posixpath.join` computes it.
-/

/-- One step of CPython `posixpath.join`: folding a further component `b`
onto the accumulated `path`.  If `b` starts with the separator it replaces
the path; if the path is empty or already ends with the separator, `b` is
appended directly; otherwise a separator is inserted. -/
def joinOne (path b : String) : String :=
  if b.data.head? = some '/' then b
  else if path = "" ∨ path.data.getLast? = some '/' then path ++ b
  else path ++ "/" ++ b

/-- CPython `os.path.join a ps` on a POSIX system: left fold of `joinOne`
over the components. -/
def os_path_join (a : String) (ps : List String) : String :=
  ps.foldl joinOne a

/-- An `IncludeLaunchDescription` action: the substitution list given to
`PythonLaunchDescriptionSource` and the `launch_arguments` key/value pairs
(in Python dict insertion order, as produced by `.items()`). -/
structure IncludeLaunch where
  source : List String
  launch_arguments : List (String × String)
deriving DecidableEq

/-- One entry of a `Node`'s `parameters` list: either a parameter-file path
or an inline dictionary of parameter name/value pairs. -/
inductive NodeParameter where
  | paramFile (path : String)
  | paramDict (entries : List (String × String))
deriving DecidableEq

/-- One entry of a `Node`'s `arguments` list: either a literal string or a
nested substitution list of strings. -/
inductive NodeArgument where
  | lit (s : String)
  | subst (parts : List String)
deriving DecidableEq

/-- A `launch_ros.actions.Node` action with the keyword arguments used in
this launch file.  Keywords not passed at a construction site keep their
defaults (`output := none`, empty `parameters` and `arguments`). -/
structure NodeAction where
  package : String
  executable : String
  name : String
  output : Option String := none
  parameters : List NodeParameter := []
  arguments : List NodeArgument := []
deriving DecidableEq

/-- An action held by a `LaunchDescription`: in this file either an
`IncludeLaunchDescription` or a `Node`. -/
inductive LaunchAction where
  | includeLaunch (d : IncludeLaunch)
  | node (n : NodeAction)
deriving DecidableEq

/-- The `LaunchDescription` value: the ordered list of actions it was
constructed from. -/
structure LaunchDescription where
  actions : List LaunchAction
deriving DecidableEq

/-- The local `pf_localization_launch` of the script, as a function of the
resolver `gpsd` standing for `get_package_share_directory`. -/
def pf_localization_launch (gpsd : String → String) : IncludeLaunch :=
  { source := [os_path_join (gpsd "mrpt_pf_localization")
      ["launch", "localization.launch.py"]],
    launch_arguments := [
      ("mrpt_metricmap_file", os_path_join (gpsd "mrpt_tutorials") ["", ""]),
      ("log_level", "INFO")] }

/-- The local `mrpt_map_launch` of the script. -/
def mrpt_map_launch (gpsd : String → String) : IncludeLaunch :=
  { source := [os_path_join (gpsd "mrpt_map")
      ["launch", "mrpt_map_server.launch.py"]],
    launch_arguments := [
      ("map_yaml_file", os_path_join (gpsd "mrpt_tutorials")
        ["maps", "demo_world2.yaml"])] }

/-- The local `mvsim_node` of the script. -/
def mvsim_node (gpsd : String → String) : NodeAction :=
  { package := "mvsim",
    executable := "mvsim_node",
    name := "mvsim",
    output := some "screen",
    parameters := [
      NodeParameter.paramFile (os_path_join (gpsd "mrpt_tutorials")
        ["params", "mvsim_ros2_params.yaml"]),
      NodeParameter.paramDict [
        ("world_file", os_path_join (gpsd "mrpt_tutorials")
          ["mvsim", "demo_world2.world.xml"])]] }

/-- The local `rviz2_node` of the script. -/
def rviz2_node (gpsd : String → String) : NodeAction :=
  { package := "rviz2",
    executable := "rviz2",
    name := "rviz2",
    arguments := [
      NodeArgument.lit "-d",
      NodeArgument.subst [os_path_join (gpsd "mrpt_tutorials")
        ["rviz2", "gridmap.rviz"]]] }

/-- `generate_launch_description`, as a function of the resolver `gpsd`
standing for `get_package_share_directory`. -/
def generate_launch_description (gpsd : String → String) : LaunchDescription :=
  { actions := [
      LaunchAction.includeLaunch (pf_localization_launch gpsd),
      LaunchAction.node (mvsim_node gpsd),
      LaunchAction.node (rviz2_node gpsd),
      LaunchAction.includeLaunch (mrpt_map_launch gpsd)] }

/-- Modelled from the spec: the launch description as a pure function of
the three resolved share directories, built only from string literals and
`os.path.join` ("resolve package install directories, construct file paths
via string concatenation, and forward them as parameters").  Used to state
that the script performs no substitution beyond package-share lookups and
path joins. -/
def spec_buildFromShareDirs (tutsDir pfShare mapShare : String) : LaunchDescription :=
  { actions := [
      LaunchAction.includeLaunch
        { source := [os_path_join pfShare ["launch", "localization.launch.py"]],
          launch_arguments := [
            ("mrpt_metricmap_file", os_path_join tutsDir ["", ""]),
            ("log_level", "INFO")] },
      LaunchAction.node
        { package := "mvsim",
          executable := "mvsim_node",
          name := "mvsim",
          output := some "screen",
          parameters := [
            NodeParameter.paramFile (os_path_join tutsDir
              ["params", "mvsim_ros2_params.yaml"]),
            NodeParameter.paramDict [
              ("world_file", os_path_join tutsDir
                ["mvsim", "demo_world2.world.xml"])]] },
      LaunchAction.node
        { package := "rviz2",
          executable := "rviz2",
          name := "rviz2",
          arguments := [
            NodeArgument.lit "-d",
            NodeArgument.subst [os_path_join tutsDir ["rviz2", "gridmap.rviz"]]] },
      LaunchAction.includeLaunch
        { source := [os_path_join mapShare ["launch", "mrpt_map_server.launch.py"]],
          launch_arguments := [
            ("map_yaml_file", os_path_join tutsDir ["maps", "demo_world2.yaml"])] }] }

/-- The error raised by `get_package_share_directory` when a package is not
installed (`PackageNotFoundError`), carried as its message. -/
abbrev PackageNotFoundError := String

/-- `generate_launch_description` with the resolver allowed to raise.
The script wraps no call in a try/except, so the three resolver calls are
threaded in the script's evaluation order (line 17, line 23, line 33) and
the first failure aborts the whole function. -/
def generate_launch_description_exc
    (gpsd : String → Except PackageNotFoundError String) :
    Except PackageNotFoundError LaunchDescription := do
  let tutsDir ← gpsd "mrpt_tutorials"
  let pfShare ← gpsd "mrpt_pf_localization"
  let mapShare ← gpsd "mrpt_map"
  pure { actions := [
      LaunchAction.includeLaunch
        { source := [os_path_join pfShare ["launch", "localization.launch.py"]],
          launch_arguments := [
            ("mrpt_metricmap_file", os_path_join tutsDir ["", ""]),
            ("log_level", "INFO")] },
      LaunchAction.node
        { package := "mvsim",
          executable := "mvsim_node",
          name := "mvsim",
          output := some "screen",
          parameters := [
            NodeParameter.paramFile (os_path_join tutsDir
              ["params", "mvsim_ros2_params.yaml"]),
            NodeParameter.paramDict [
              ("world_file", os_path_join tutsDir
                ["mvsim", "demo_world2.world.xml"])]] },
      LaunchAction.node
        { package := "rviz2",
          executable := "rviz2",
          name := "rviz2",
          arguments := [
            NodeArgument.lit "-d",
            NodeArgument.subst [os_path_join tutsDir ["rviz2", "gridmap.rviz"]]] },
      LaunchAction.includeLaunch
        { source := [os_path_join mapShare ["launch", "mrpt_map_server.launch.py"]],
          launch_arguments := [
            ("map_yaml_file", os_path_join tutsDir ["maps", "demo_world2.yaml"])] }] }

/-- Discriminator used to count the two kinds of actions. -/
def isIncludeAction : LaunchAction → Bool
  | LaunchAction.includeLaunch _ => true
  | LaunchAction.node _ => false

/-- Joining two empty components onto a nonempty path that does not end in
the separator appends exactly one trailing separator. -/
lemma os_path_join_two_empty (s : String) (h : s ≠ "")
    (h2 : s.data.getLast? ≠ some '/') :
    os_path_join s ["", ""] = s ++ "/" := by
  have hc : ¬ (s = "" ∨ s.data.getLast? = some '/') := by
    rintro (rfl | hx)
    · exact h rfl
    · exact h2 hx
  have hhead : ¬ (("" : String).data.head? = some '/') := by decide
  have hd : (s ++ "/" ++ "").data = s.data ++ ['/'] := by
    rw [String.data_append, String.data_append]
    simp
  have e1 : joinOne s "" = s ++ "/" ++ "" := by
    unfold joinOne
    rw [if_neg hhead, if_neg hc]
  have e2 : joinOne (s ++ "/" ++ "") "" = (s ++ "/" ++ "") ++ "" := by
    unfold joinOne
    rw [if_neg hhead, if_pos (Or.inr (by rw [hd]; exact List.getLast?_concat _))]
  show joinOne (joinOne s "") "" = s ++ "/"
  rw [e1, e2]
  apply String.ext
  rw [String.data_append, hd]
  simp

/-- Joining two empty components onto a path that already ends in the
separator leaves the path unchanged. -/
lemma os_path_join_two_empty_sep (s : String)
    (h2 : s.data.getLast? = some '/') :
    os_path_join s ["", ""] = s := by
  have hhead : ¬ (("" : String).data.head? = some '/') := by decide
  have hse : s ++ "" = s := by
    apply String.ext
    rw [String.data_append]
    simp
  have e1 : joinOne s "" = s ++ "" := by
    unfold joinOne
    rw [if_neg hhead, if_pos (Or.inr h2)]
  have e2 : joinOne (s ++ "") "" = s ++ "" := by
    rw [hse]
    unfold joinOne
    rw [if_neg hhead, if_pos (Or.inr h2), hse]
  show joinOne (joinOne s "") "" = s
  rw [e1, e2, hse]

/-- Claim C1: for every result of package-share-directory resolution, the
launch description returned by `generate_launch_description` contains
exactly four actions, of which exactly two are included launch
descriptions and exactly two are node actions. -/
theorem C1_four_actions (gpsd : String → String) :
    (generate_launch_description gpsd).actions.length = 4 ∧
    ((generate_launch_description gpsd).actions.filter isIncludeAction).length = 2 ∧
    ((generate_launch_description gpsd).actions.filter
      (fun a => ! isIncludeAction a)).length = 2 :=
  ⟨rfl, rfl, rfl⟩

/-- Claim C2: the map-server include action appears in the returned launch
description and its launch argument `map_yaml_file` equals the
`os.path.join` of the tutorials share directory with `maps` and
`demo_world2.yaml`. -/
theorem C2_map_yaml_file (gpsd : String → String) :
    LaunchAction.includeLaunch (mrpt_map_launch gpsd) ∈
      (generate_launch_description gpsd).actions ∧
    (mrpt_map_launch gpsd).launch_arguments.lookup "map_yaml_file"
      = some (os_path_join (gpsd "mrpt_tutorials") ["maps", "demo_world2.yaml"]) := by
  refine ⟨?_, rfl⟩
  simp [generate_launch_description]

/-- Claim C3: the mvsim node action appears in the returned launch
description, and its parameters are exactly the parameter-file path
`os.path.join tutsDir params mvsim_ros2_params.yaml` together with the
dictionary entry `world_file` mapped to
`os.path.join tutsDir mvsim demo_world2.world.xml`. -/
theorem C3_mvsim_world_file (gpsd : String → String) :
    LaunchAction.node (mvsim_node gpsd) ∈
      (generate_launch_description gpsd).actions ∧
    (mvsim_node gpsd).parameters = [
      NodeParameter.paramFile (os_path_join (gpsd "mrpt_tutorials")
        ["params", "mvsim_ros2_params.yaml"]),
      NodeParameter.paramDict [
        ("world_file", os_path_join (gpsd "mrpt_tutorials")
          ["mvsim", "demo_world2.world.xml"])]] := by
  refine ⟨?_, rfl⟩
  simp [generate_launch_description]

/-- Claim C4: the rviz2 node action appears in the returned launch
description and its command-line arguments are exactly the literal `-d`
followed by the substitution list holding
`os.path.join tutsDir rviz2 gridmap.rviz`. -/
theorem C4_rviz_config (gpsd : String → String) :
    LaunchAction.node (rviz2_node gpsd) ∈
      (generate_launch_description gpsd).actions ∧
    (rviz2_node gpsd).arguments = [
      NodeArgument.lit "-d",
      NodeArgument.subst [os_path_join (gpsd "mrpt_tutorials")
        ["rviz2", "gridmap.rviz"]]] := by
  refine ⟨?_, rfl⟩
  simp [generate_launch_description]

/-- Claim C5: each of the four actions carries exactly the fixed keyword
parameters the interface names: the localization include exactly
`mrpt_metricmap_file` and `log_level` (the latter `INFO`), the map-server
include exactly `map_yaml_file`, the simulator node exactly the
parameter-file path and `world_file`, and the visualizer node exactly the
config-file path (after `-d`). -/
theorem C5_exact_keyword_parameters (gpsd : String → String) :
    (pf_localization_launch gpsd).launch_arguments.map Prod.fst
      = ["mrpt_metricmap_file", "log_level"] ∧
    (pf_localization_launch gpsd).launch_arguments.lookup "log_level"
      = some "INFO" ∧
    (mrpt_map_launch gpsd).launch_arguments.map Prod.fst = ["map_yaml_file"] ∧
    (mvsim_node gpsd).parameters = [
      NodeParameter.paramFile (os_path_join (gpsd "mrpt_tutorials")
        ["params", "mvsim_ros2_params.yaml"]),
      NodeParameter.paramDict [
        ("world_file", os_path_join (gpsd "mrpt_tutorials")
          ["mvsim", "demo_world2.world.xml"])]] ∧
    (rviz2_node gpsd).arguments = [
      NodeArgument.lit "-d",
      NodeArgument.subst [os_path_join (gpsd "mrpt_tutorials")
        ["rviz2", "gridmap.rviz"]]] :=
  ⟨rfl, rfl, rfl, rfl, rfl⟩

/-- Claim C6: the whole launch description factors through the three
package-share lookups: it equals a function of the three resolved
directories that is built only from string literals and `os.path.join`,
so the only substitutions performed are package-share resolution and
path joins. -/
theorem C6_only_share_lookups_and_joins (gpsd : String → String) :
    generate_launch_description gpsd =
      spec_buildFromShareDirs (gpsd "mrpt_tutorials")
        (gpsd "mrpt_pf_localization") (gpsd "mrpt_map") :=
  rfl

/-- Claim C9: the returned launch description lists its four actions in
exactly the order: localization include, mvsim node, rviz2 node,
map-server include; the two nodes carry the names `mvsim` and `rviz2`. -/
theorem C9_action_order (gpsd : String → String) :
    (generate_launch_description gpsd).actions = [
      LaunchAction.includeLaunch (pf_localization_launch gpsd),
      LaunchAction.node (mvsim_node gpsd),
      LaunchAction.node (rviz2_node gpsd),
      LaunchAction.includeLaunch (mrpt_map_launch gpsd)] ∧
    (mvsim_node gpsd).name = "mvsim" ∧ (rviz2_node gpsd).name = "rviz2" :=
  ⟨rfl, rfl, rfl⟩

/-- Unfolding of the exception-aware description builder into explicit
`Except.bind` chains, in the script's evaluation order. -/
lemma generate_launch_description_exc_eq
    (gpsd : String → Except PackageNotFoundError String) :
    generate_launch_description_exc gpsd =
      Except.bind (gpsd "mrpt_tutorials") (fun tutsDir =>
        Except.bind (gpsd "mrpt_pf_localization") (fun pfShare =>
          Except.bind (gpsd "mrpt_map") (fun mapShare =>
            Except.ok (spec_buildFromShareDirs tutsDir pfShare mapShare)))) :=
  rfl

/-- Claim C7: the script has no error handling: whichever
package-share-directory lookup fails first (in evaluation order), the
exception propagates unchanged out of `generate_launch_description`, and a
launch description is returned only when all three lookups succeed. -/
theorem C7_error_propagation
    (gpsd : String → Except PackageNotFoundError String) :
    (∀ e, gpsd "mrpt_tutorials" = Except.error e →
      generate_launch_description_exc gpsd = Except.error e) ∧
    (∀ t e, gpsd "mrpt_tutorials" = Except.ok t →
      gpsd "mrpt_pf_localization" = Except.error e →
      generate_launch_description_exc gpsd = Except.error e) ∧
    (∀ t p e, gpsd "mrpt_tutorials" = Except.ok t →
      gpsd "mrpt_pf_localization" = Except.ok p →
      gpsd "mrpt_map" = Except.error e →
      generate_launch_description_exc gpsd = Except.error e) ∧
    (∀ d, generate_launch_description_exc gpsd = Except.ok d →
      ∃ t p m, gpsd "mrpt_tutorials" = Except.ok t ∧
        gpsd "mrpt_pf_localization" = Except.ok p ∧
        gpsd "mrpt_map" = Except.ok m) := by
  refine ⟨?_, ?_, ?_, ?_⟩
  · intro e h
    simp [generate_launch_description_exc_eq, h, Except.bind]
  · intro t e h1 h2
    simp [generate_launch_description_exc_eq, h1, h2, Except.bind]
  · intro t p e h1 h2 h3
    simp [generate_launch_description_exc_eq, h1, h2, h3, Except.bind]
  · intro d hd
    rw [generate_launch_description_exc_eq] at hd
    cases ht : gpsd "mrpt_tutorials" with
    | error e => rw [ht] at hd; exact absurd hd (by simp [Except.bind])
    | ok t =>
      rw [ht] at hd
      simp only [Except.bind] at hd
      cases hp : gpsd "mrpt_pf_localization" with
      | error e => rw [hp] at hd; exact absurd hd (by simp [Except.bind])
      | ok p =>
        rw [hp] at hd
        simp only [Except.bind] at hd
        cases hm : gpsd "mrpt_map" with
        | error e => rw [hm] at hd; exact absurd hd (by simp [Except.bind])
        | ok m => exact ⟨t, p, m, rfl, rfl, rfl⟩

/-- Witness for C7 at a resolver that cannot find any package. -/
theorem C7_error_propagation_witness :
    generate_launch_description_exc
        (fun _ => Except.error "package mrpt_tutorials not found")
      = Except.error "package mrpt_tutorials not found" :=
  (C7_error_propagation (fun _ => Except.error "package mrpt_tutorials not found")).1
    "package mrpt_tutorials not found" rfl

/-- Counterexample to claim C8 as stated: with a resolver returning the
empty string, the tutorials directory does not end in a separator, yet the
`mrpt_metricmap_file` argument is the empty string, not the directory with
a trailing separator appended. -/
theorem C8_counterexample :
    ¬ (((fun _ => "") : String → String) "mrpt_tutorials").data.getLast? = some '/' ∧
    (pf_localization_launch (fun _ => "")).launch_arguments.lookup "mrpt_metricmap_file"
      = some "" ∧
    (pf_localization_launch (fun _ => "")).launch_arguments.lookup "mrpt_metricmap_file"
      ≠ some (((fun _ => "") : String → String) "mrpt_tutorials" ++ "/") := by
  refine ⟨by decide, by decide, by decide⟩

/-- Claim C8 (amended): the localization include's `mrpt_metricmap_file`
argument equals `os.path.join tutsDir two-empty-components`; when `tutsDir`
is nonempty and does not already end in a separator this is
`tutsDir ++ slash`, and when it already ends in a separator it is `tutsDir`
itself — not a path to any metric-map file inside it. -/
theorem C8_metricmap_trailing_sep (gpsd : String → String) :
    (pf_localization_launch gpsd).launch_arguments.lookup "mrpt_metricmap_file"
      = some (os_path_join (gpsd "mrpt_tutorials") ["", ""]) ∧
    (gpsd "mrpt_tutorials" ≠ "" →
      (gpsd "mrpt_tutorials").data.getLast? ≠ some '/' →
      (pf_localization_launch gpsd).launch_arguments.lookup "mrpt_metricmap_file"
        = some (gpsd "mrpt_tutorials" ++ "/")) ∧
    ((gpsd "mrpt_tutorials").data.getLast? = some '/' →
      (pf_localization_launch gpsd).launch_arguments.lookup "mrpt_metricmap_file"
        = some (gpsd "mrpt_tutorials")) := by
  have base : (pf_localization_launch gpsd).launch_arguments.lookup "mrpt_metricmap_file"
      = some (os_path_join (gpsd "mrpt_tutorials") ["", ""]) := rfl
  refine ⟨base, ?_, ?_⟩
  · intro h1 h2
    rw [base, os_path_join_two_empty (gpsd "mrpt_tutorials") h1 h2]
  · intro h2
    rw [base, os_path_join_two_empty_sep (gpsd "mrpt_tutorials") h2]

/-- Witness for C8 (amended) at a realistic share directory. -/
theorem C8_metricmap_trailing_sep_witness :
    (pf_localization_launch
        (fun _ => "/ros/share/mrpt_tutorials")).launch_arguments.lookup
      "mrpt_metricmap_file" = some "/ros/share/mrpt_tutorials/" :=
  (C8_metricmap_trailing_sep (fun _ => "/ros/share/mrpt_tutorials")).2.1
    (by decide) (by decide)

/-- Claim C10: `generate_launch_description` is deterministic and depends
only on the resolver's answers for the three packages it queries: two
resolvers agreeing on `mrpt_tutorials`, `mrpt_pf_localization` and
`mrpt_map` yield structurally identical launch descriptions. -/
theorem C10_deterministic (g1 g2 : String → String)
    (h1 : g1 "mrpt_tutorials" = g2 "mrpt_tutorials")
    (h2 : g1 "mrpt_pf_localization" = g2 "mrpt_pf_localization")
    (h3 : g1 "mrpt_map" = g2 "mrpt_map") :
    generate_launch_description g1 = generate_launch_description g2 := by
  unfold generate_launch_description pf_localization_launch mrpt_map_launch
    mvsim_node rviz2_node
  rw [h1, h2, h3]

/-- Witness for C10: two resolvers differing on an unrelated package but
agreeing on the three queried ones produce the same description. -/
theorem C10_deterministic_witness :
    generate_launch_description
        (fun p => if p = "other_pkg" then "A" else "/opt/ros/share/" ++ p)
      = generate_launch_description
        (fun p => if p = "other_pkg" then "B" else "/opt/ros/share/" ++ p) :=
  C10_deterministic _ _ (by decide) (by decide) (by decide)
